import Mathlib

/-!
Shallow embedding of `app2.py` (EmailGenie, a Streamlit email-generator app)
and proofs about its behaviour.

The app keeps per-session state (`st.session_state`): a conversation message
list, an `email_generated` flag and a `profile` dict.  It talks to two
external HTTP services (an LLM chat-completion endpoint and the Resend email
API) and persists profiles to a header-less CSV file via pandas.

External I/O is modelled by passing the answer of the environment (an HTTP
response, a network oracle, the current file contents) as an explicit
argument to the embedded function.
-/

namespace EmailG

/-- Minimal JSON values, as inspected by the app (`response.json()` and the
dict returned by `resend.Emails.send`). -/
inductive Json where
  | str (s : String)
  | num (n : Int)
  | arr (xs : List Json)
  | obj (fields : List (String × Json))
  | null
deriving Repr, BEq

/-- Python `d[k]` on a JSON object: the value at the first matching key,
or failure (KeyError / TypeError) when absent or not a dict. -/
def Json.getField : Json → String → Option Json
  | .obj fs, k => (fs.find? (fun p => p.1 == k)).map Prod.snd
  | _, _ => none

/-- Python `xs[i]` on a JSON array: failure (IndexError / TypeError) when out
of range or not a list. -/
def Json.getIdx : Json → Nat → Option Json
  | .arr xs, i => xs[i]?
  | _, _ => none

/-- Whether a JSON object carries the given key (the membership test on the Python dict). -/
def Json.hasKey : Json → String → Bool
  | .obj fs, k => fs.any (fun p => p.1 == k)
  | _, _ => false

/-- Message roles used in the conversation list. -/
inductive Role where
  | system
  | user
  | assistant
deriving Repr, DecidableEq

/-- One entry of `st.session_state.messages`.  The content the app stores is
always a Python string (the system prompt, the built user prompt, or the
`content` string extracted from the completion response). -/
structure Message where
  role : Role
  content : String
deriving Repr, DecidableEq

/-- The fixed system prompt installed at initialisation and on Start Over
(lines 49-52 and 193-196 of app2.py). -/
def systemPrompt : String :=
  "You are an AI assistant generating personalized emails. Use the provided information to create customized email content."

/-- The single system message heading every fresh conversation. -/
def systemMessage : Message := ⟨.system, systemPrompt⟩

/-- A cell of a pandas DataFrame as produced by `pd.read_csv` in this app:
a missing value (NaN), a string, a number, or a boolean.  Numeric cells
carry their source literal; the model never does arithmetic on them, it only
needs that a numeric cell differs from every string cell. -/
inductive Cell where
  | str (s : String)
  | nan
  | num (lit : String)
  | boolean (b : Bool)
deriving Repr, DecidableEq

/-- A saved sender profile: the four text-input values
(lines 118-124 of app2.py). -/
structure Profile where
  name : String
  industry : String
  company : String
  targetAudience : String
deriving Repr, DecidableEq

/-- The per-session mutable state (`st.session_state`, lines 47-55). -/
structure SessionState where
  messages : List Message
  email_generated : Bool
  profile : List (String × Cell)
deriving Repr, DecidableEq

/-- The freshly initialised session state (lines 47-55 of app2.py). -/
def initState : SessionState :=
  { messages := [systemMessage], email_generated := false, profile := [] }

/-- An HTTP response as observed by the app: a status code and a JSON body. -/
structure HttpResponse where
  status_code : Nat
  body : Json
deriving Repr

/-- Role names as serialised into the request body. -/
def Role.toName : Role → String
  | .system => "system"
  | .user => "user"
  | .assistant => "assistant"

/-- One message as serialised into the completion request body. -/
def messageToJson (m : Message) : Json :=
  .obj [("role", .str m.role.toName), ("content", .str m.content)]

/-- The request body built by `get_llm_response` (line 59 of app2.py). -/
def llmRequestBody (messages : List Message) : Json :=
  .obj [("model", .str "llama3-8b-8192"), ("messages", .arr (messages.map messageToJson))]

/-- Outcome of `get_llm_response`:
`ok`      - 200 response, content string extracted and returned;
`exn`     - 200 response whose body lacks the expected shape, so the chained
            subscripts raise an uncaught exception;
`stopped` - any other status: `st.error` plus `st.stop`, aborting the script
            run (lines 63-65 of app2.py). -/
inductive LlmResult where
  | ok (text : String)
  | exn
  | stopped (status : Nat)
deriving Repr, DecidableEq

/-- The JSON path `choices[0].message.content` read on a 200 response
(line 62 of app2.py); the `content` field of the endpoint is a string, and a
non-string value there is modelled as a shape error. -/
def extractContent (j : Json) : Option String :=
  match (((j.getField "choices").bind (fun v => v.getIdx 0)).bind
      (fun v => v.getField "message")).bind (fun v => v.getField "content") with
  | some (.str s) => some s
  | _ => none

/-- Embedding of `get_llm_response(messages)` (lines 58-65 of app2.py); the
HTTP response the POST would yield is passed explicitly.  The `messages`
argument only feeds the request body, never the result. -/
def get_llm_response (messages : List Message) (resp : HttpResponse) : LlmResult :=
  let _body := llmRequestBody messages
  if resp.status_code = 200 then
    match extractContent resp.body with
    | some c => .ok c
    | none => .exn
  else
    .stopped resp.status_code

/-- Outcome of one press of the Generate Email button. -/
inductive GenOutcome where
  | success (text : String)
  | aborted (status : Nat)
  | exn
deriving Repr, DecidableEq

/-- Embedding of the Generate Email button handler (lines 140-161 of
app2.py): the user prompt is appended to the conversation FIRST, then the
completion endpoint is consulted; only on a 200 response with the expected
shape is the assistant message appended and the flag set.  `st.stop` (and an
uncaught exception) aborts the script run, but the already-performed append
to `st.session_state.messages` persists. -/
def generate_email_handler (s : SessionState) (prompt : String) (resp : HttpResponse) :
    SessionState × GenOutcome :=
  let s1 := { s with messages := s.messages ++ [⟨.user, prompt⟩] }
  match get_llm_response s1.messages resp with
  | .ok c =>
      ({ s1 with messages := s1.messages ++ [⟨.assistant, c⟩], email_generated := true },
       .success c)
  | .exn => (s1, .exn)
  | .stopped st => (s1, .aborted st)

/-- Embedding of the Start Over button handler (lines 191-199 of app2.py):
every session-state field is reassigned. -/
def start_over_handler (_s : SessionState) : SessionState :=
  { messages := [⟨.system, systemPrompt⟩], email_generated := false, profile := [] }

/-- The fixed sender address (line 75 of app2.py). -/
def senderAddress : String := "onboarding@resend.dev"

/-- The fixed recipient the Send Email handler pins (line 170 of app2.py). -/
def fixedRecipient : String := "spam.vanshjain@gmail.com"

/-- The email-provider configuration: whether the `resend` import succeeded
and the value of the `RESEND_API_KEY` environment variable (`none` when
unset). -/
structure EmailConfig where
  resendInstalled : Bool
  resendApiKey : Option String
deriving Repr, DecidableEq

/-- Python truthiness of the optional key string: `None` and `""` are falsy. -/
def keyTruthy : Option String → Bool
  | none => false
  | some s => !(s == "")

/-- The guard on lines 69 and 169 of app2.py: the provider library is present
and the credential is set. -/
def emailConfigured (cfg : EmailConfig) : Bool :=
  cfg.resendInstalled && keyTruthy cfg.resendApiKey

/-- The request parameters built for `resend.Emails.send`
(lines 74-79 of app2.py). -/
structure SendParams where
  fromAddr : String
  toAddr : List String
  subject : String
  html : String
deriving Repr, DecidableEq

/-- The effect of one `send_email` call: the Python return value, the error
messages shown, and the provider request actually issued (`none` when the
call short-circuited before any network activity). -/
structure SendEffect where
  result : Option Json
  errors : List String
  paramsSent : Option SendParams
deriving Repr

/-- Embedding of `send_email(subject, body, recipient_email)`
(lines 68-84 of app2.py).  The behaviour of the provider is external and passed
as an oracle `net`: `.ok v` is the value `resend.Emails.send` returns,
`.error e` an exception it raises (caught on line 82). -/
def send_email (cfg : EmailConfig) (net : SendParams → Except String Json)
    (subject body recipient_email : String) : SendEffect :=
  if !cfg.resendInstalled || !keyTruthy cfg.resendApiKey then
    { result := none,
      errors := ["Email sending is not available. Please install Resend and set the API key."],
      paramsSent := none }
  else
    let params : SendParams :=
      { fromAddr := senderAddress, toAddr := [recipient_email], subject := subject, html := body }
    match net params with
    | .ok email => { result := some email, errors := [], paramsSent := some params }
    | .error e =>
        { result := none, errors := ["Failed to send email: " ++ e], paramsSent := some params }

/-- What the Send Email handler reports to the user. -/
inductive SendReport where
  | success (deliveryId : Json)
  | failure (msg : String)
deriving Repr

/-- The content of the last conversation message
(`st.session_state.messages[-1]["content"]`); the list is never empty in the
running app, so the default is never taken. -/
def lastContent (s : SessionState) : String :=
  (s.messages.getLastD systemMessage).content

/-- The None / has-id / no-id check on the value returned by `send_email`
(lines 172-178 of app2.py). -/
def sendReportOf (result : Option Json) : SendReport :=
  match result with
  | none => .failure "Failed to send email: email_result is None."
  | some r =>
      match r.getField "id" with
      | some v => .success v
      | none => .failure "Failed to send email: email_result does not have an id."

/-- Embedding of the Send Email button handler (lines 168-180 of app2.py).
It takes the user-entered recipient field, but line 170 overwrites
`recipient_email` with the fixed mailbox before calling `send_email`.
The result is checked for being a dict that carries an `id` key. -/
def send_email_handler (cfg : EmailConfig) (net : SendParams → Except String Json)
    (email_subject : String) (s : SessionState) (user_recipient : String) :
    SendReport × SendEffect :=
  let _ := user_recipient
  if cfg.resendInstalled && keyTruthy cfg.resendApiKey then
    let recipient_email := fixedRecipient
    let eff := send_email cfg net email_subject (lastContent s) recipient_email
    (sendReportOf eff.result, eff)
  else
    (.failure "Email sending is not available. Please install Resend and set the API key.",
     { result := none, errors := [], paramsSent := none })

/-- Characters that force `pandas.DataFrame.to_csv` (csv QUOTE_MINIMAL) to
quote a field: the delimiter, the quote character and line breaks. -/
def specialChar (c : Char) : Bool :=
  c == ',' || c == '"' || c == '\n' || c == '\r'

/-- Whether a field must be quoted when written. -/
def needsQuoting (s : String) : Bool :=
  s.data.any specialChar

/-- Quote-escaping inside a quoted CSV field: each quote is doubled. -/
def escapeQuotes : List Char → List Char
  | [] => []
  | c :: cs => if c = '"' then '"' :: '"' :: escapeQuotes cs else c :: escapeQuotes cs

/-- One field as `to_csv` writes it: quoted with doubled quotes when it
contains a special character, verbatim otherwise. -/
def encodeField (s : String) : String :=
  if needsQuoting s then String.mk ('"' :: (escapeQuotes s.data ++ ['"'])) else s

/-- One profile as `to_csv(mode='a', index=False, header=False)` appends it
(lines 87-89 of app2.py): four comma-separated fields and a newline, in the
column order Name, Industry, Company, Target Audience. -/
def encodeRow (p : Profile) : String :=
  encodeField p.name ++ "," ++ encodeField p.industry ++ "," ++
    encodeField p.company ++ "," ++ encodeField p.targetAudience ++ "\n"

/-- Embedding of `save_profile(profile)` (lines 87-89 of app2.py).  The
store file is explicit: `none` means `user_profiles.csv` does not exist;
append mode creates it. -/
def save_profile (file : Option String) (p : Profile) : Option String :=
  some ((file.getD "") ++ encodeRow p)

/-- The store contents after saving each profile of `ps` in order into an
initially absent file. -/
def buildStore (ps : List Profile) : Option String :=
  ps.foldl save_profile none

/-- Tokenizer state: outside quotes, inside a quoted field, or just past a
closing quote (where a second quote means an escaped quote). -/
inductive CsvMode where
  | plain
  | quoted
  | quoteEnd
deriving Repr, DecidableEq

/-- CSV tokenizer for the files this app writes, mirroring the pandas
reader: `acc` holds finished records, `row` the finished fields of the
current record, `field` the characters of the current field.  A final
newline does not open an empty record. -/
def parseCsvAux (acc : List (List String)) (row : List String) (field : List Char)
    (mode : CsvMode) : List Char → List (List String)
  | [] =>
      match mode with
      | .plain => if row = [] ∧ field = [] then acc else acc ++ [row ++ [String.mk field]]
      | .quoted => acc ++ [row ++ [String.mk field]]
      | .quoteEnd => acc ++ [row ++ [String.mk field]]
  | c :: cs =>
      match mode with
      | .quoted =>
          if c = '"' then parseCsvAux acc row field .quoteEnd cs
          else parseCsvAux acc row (field ++ [c]) .quoted cs
      | .quoteEnd =>
          if c = '"' then parseCsvAux acc row (field ++ ['"']) .quoted cs
          else if c = ',' then parseCsvAux acc (row ++ [String.mk field]) [] .plain cs
          else if c = '\n' then parseCsvAux (acc ++ [row ++ [String.mk field]]) [] [] .plain cs
          else parseCsvAux acc row (field ++ [c]) .plain cs
      | .plain =>
          if c = ',' then parseCsvAux acc (row ++ [String.mk field]) [] .plain cs
          else if c = '\n' then parseCsvAux (acc ++ [row ++ [String.mk field]]) [] [] .plain cs
          else if c = '"' ∧ field = [] then parseCsvAux acc row [] .quoted cs
          else parseCsvAux acc row (field ++ [c]) .plain cs

/-- Raw records of a CSV file. -/
def parseCsv (s : String) : List (List String) :=
  parseCsvAux [] [] [] .plain s.data

/-- The default strings `pd.read_csv` treats as missing values. -/
def naTokens : List String :=
  ["", "#N/A", "#N/A N/A", "#NA", "-1.#IND", "-1.#QNAN", "-NaN", "-nan",
   "1.#IND", "1.#QNAN", "<NA>", "N/A", "NA", "NULL", "NaN", "None",
   "n/a", "nan", "null"]

/-- Whether a raw field reads back as missing. -/
def isNa (s : String) : Bool := naTokens.contains s

/-- Nonempty run of decimal digits. -/
def allDigits (cs : List Char) : Bool :=
  !cs.isEmpty && cs.all Char.isDigit

/-- Strip one optional leading sign. -/
def stripSign : List Char → List Char
  | '+' :: cs => cs
  | '-' :: cs => cs
  | cs => cs

/-- Mantissa forms the pandas reader accepts: `digits`, `digits.digits*`
and `.digits`. -/
def isMantissa (cs : List Char) : Bool :=
  let ds := cs.takeWhile Char.isDigit
  let rest := cs.dropWhile Char.isDigit
  match rest with
  | [] => !ds.isEmpty
  | '.' :: frac => if ds.isEmpty then allDigits frac else frac.all Char.isDigit
  | _ => false

/-- Unsigned mantissa with an optional exponent part. -/
def isNumericCore (cs : List Char) : Bool :=
  let m := cs.takeWhile (fun c => !(c == 'e' || c == 'E'))
  let rest := cs.dropWhile (fun c => !(c == 'e' || c == 'E'))
  match rest with
  | [] => isMantissa m
  | _ :: ex => isMantissa m && allDigits (stripSign ex)

/-- ASCII lower-casing of one character. -/
def lowerAscii (c : Char) : Char :=
  if 'A' ≤ c ∧ c ≤ 'Z' then Char.ofNat (c.toNat + 32) else c

/-- Case-insensitive match against the infinity spellings the pandas reader
converts. -/
def isInfLit (cs : List Char) : Bool :=
  (cs.map lowerAscii) == "inf".data || (cs.map lowerAscii) == "infinity".data

/-- The characters C `isspace` accepts, which the numeric converters of the
pandas C tokenizer (`str_to_int64`, `xstrtod`) skip around a number. -/
def isSpaceChar (c : Char) : Bool :=
  c == ' ' || c == '\t' || c == '\n' || c == '\r' || c == '\x0b' || c == '\x0c'

/-- Strip the leading and trailing whitespace the numeric converters
tolerate. -/
def stripSpaces (cs : List Char) : List Char :=
  ((cs.dropWhile isSpaceChar).reverse.dropWhile isSpaceChar).reverse

/-- Whether the pandas reader parses a raw field as a number.  This mirrors
the numeric literals the C tokenizer converts: optionally signed decimal or
scientific literals and infinities, with leading and trailing whitespace
skipped by the converters. -/
def isNumericLit (s : String) : Bool :=
  let cs := stripSign (stripSpaces s.data)
  isNumericCore cs || isInfLit cs

/-- The literals the pandas reader converts to `True`. -/
def isTrueLit (s : String) : Bool :=
  s == "True" || s == "TRUE" || s == "true"

/-- The literals the pandas reader converts to booleans. -/
def isBoolLit (s : String) : Bool :=
  isTrueLit s || s == "False" || s == "FALSE" || s == "false"

/-- The raw field of record `r` in column `j`; a short record yields an
empty field, which reads back as missing. -/
def rawAt (r : List String) (j : Nat) : String := r.getD j ""

/-- Column dtype sniffing: a column whose non-missing raw fields are all
numeric literals becomes a numeric column. -/
def colIsNumeric (raw : List (List String)) (j : Nat) : Bool :=
  raw.all (fun r => isNa (rawAt r j) || isNumericLit (rawAt r j))

/-- A column whose non-missing raw fields are all boolean literals becomes
a boolean column. -/
def colIsBool (raw : List (List String)) (j : Nat) : Bool :=
  raw.all (fun r => isNa (rawAt r j) || isBoolLit (rawAt r j))

/-- One raw field converted under the dtype of its column. -/
def convertCell (numC boolC : Bool) (s : String) : Cell :=
  if isNa s then .nan
  else if numC then .num s
  else if boolC then .boolean (isTrueLit s)
  else .str s

/-- The four column labels passed to `pd.read_csv` via `names=`
(line 93 of app2.py). -/
def profileColumns : List String :=
  ["Name", "Industry", "Company", "Target Audience"]

/-- All raw records converted to cells under the four named columns. -/
def convertTable (raw : List (List String)) : List (List Cell) :=
  raw.map (fun r =>
    (List.range 4).map (fun j =>
      convertCell (colIsNumeric raw j) (colIsBool raw j) (rawAt r j)))

/-- A pandas DataFrame as this app observes it: the column labels and the
converted rows. -/
structure DataFrame where
  columns : List String
  rows : List (List Cell)
deriving Repr, DecidableEq

/-- Embedding of `load_profiles()` (lines 91-95 of app2.py): a missing file
(`FileNotFoundError`) yields an empty frame with the four expected columns;
otherwise the file is parsed with those column names.  The app only ever
reads files it wrote, which are nonempty. -/
def load_profiles (file : Option String) : DataFrame :=
  match file with
  | none => { columns := profileColumns, rows := [] }
  | some s => { columns := profileColumns, rows := convertTable (parseCsv s) }

/-- The saved profile as a row of string cells, in store column order. -/
def profileRow (p : Profile) : List Cell :=
  [.str p.name, .str p.industry, .str p.company, .str p.targetAudience]

/-- The raw record a saved profile contributes to the parsed file. -/
def rawRow (p : Profile) : List String :=
  [p.name, p.industry, p.company, p.targetAudience]

/-- Pandas equality of a cell against a Python string (the mask
`profiles["Name"] == selected_profile` on line 110 of app2.py): only a
string cell with the same characters compares equal; NaN, numbers and
booleans never equal a string. -/
def cellEqStr (c : Cell) (s : String) : Bool :=
  match c with
  | .str v => v == s
  | _ => false

/-- Embedding of the Load Existing Profile branch (lines 105-110 of
app2.py): the rows whose Name cell equals the selection, taken at `iloc[0]`
(`none` models the IndexError when nothing matches). -/
def load_existing_profile (df : DataFrame) (selected : String) : Option (List Cell) :=
  (df.rows.filter (fun r => cellEqStr (r.getD 0 .nan) selected)).head?

/-- The profile dict stored by the Save Profile handler
(lines 123-126 of app2.py). -/
def profileDict (p : Profile) : List (String × Cell) :=
  [("Name", .str p.name), ("Industry", .str p.industry),
   ("Company", .str p.company), ("Target Audience", .str p.targetAudience)]

/-- The user-driven button presses that mutate the session state. -/
inductive Action where
  | generate (prompt : String) (resp : HttpResponse)
  | startOver
  | saveProfile (p : Profile)
  | loadProfile (row : List (String × Cell))

/-- The session-state effect of one button press.  Save Profile and Load
Existing Profile only reassign `st.session_state.profile`; Send Email and
the history view never write the state. -/
def stepState (s : SessionState) : Action → SessionState
  | .generate prompt resp => (generate_email_handler s prompt resp).1
  | .startOver => start_over_handler s
  | .saveProfile p => { s with profile := profileDict p }
  | .loadProfile row => { s with profile := row }

/-- Session states reachable from initialisation by button presses. -/
inductive Reachable : SessionState → Prop where
  | init : Reachable initState
  | step {s : SessionState} (a : Action) : Reachable s → Reachable (stepState s a)

/-- A field string that survives the CSV round trip untouched: it is not a
missing-value token (in particular not empty), not a numeric literal and
not a boolean literal, so the pandas reader keeps it as the same string. -/
def goodField (s : String) : Bool :=
  !(isNa s) && !(isNumericLit s) && !(isBoolLit s)

/-- The text of the store file holding the given profiles in order. -/
def storeText : List Profile → String
  | [] => ""
  | p :: ps => encodeRow p ++ storeText ps

/-- The simulated 200 body of section 8 of the spec:
`choices[0].message.content` is the string Hello. -/
def helloBody : Json :=
  .obj [("choices", .arr [.obj [("message", .obj [("content", .str "Hello")])]])]

/-! ## Theorems -/

/-- C6: if no profile store file exists, `load_profiles` returns an empty
table with exactly the four expected columns and does not raise (the
`FileNotFoundError` branch returns an empty frame). -/
theorem load_profiles_missing_file_empty :
    load_profiles none =
      { columns := ["Name", "Industry", "Company", "Target Audience"], rows := [] } :=
  rfl

/-- C7: for every message list, a 200 completion response with body
`choices[0].message.content = "Hello"` makes `get_llm_response` return
exactly the string Hello. -/
theorem get_llm_response_hello (messages : List Message) :
    get_llm_response messages ⟨200, helloBody⟩ = .ok "Hello" :=
  rfl

/-- C9: from every session state, Start Over restores the conversation to
exactly the single fixed system message and clears the generated flag. -/
theorem start_over_resets (s : SessionState) :
    (start_over_handler s).messages = [systemMessage] ∧
      (start_over_handler s).email_generated = false :=
  ⟨rfl, rfl⟩

/-- C1 counterexample: at the initial state, a simulated 500 completion
response does NOT leave the conversation unchanged: the user message has
already been appended when the action aborts. -/
theorem generate_500_appends_user_message :
    (generate_email_handler initState "p" ⟨500, .null⟩).1.messages ≠
      initState.messages := by
  decide

/-- C1 amended: on every non-200 completion response the generate action
aborts (no assistant message, generated flag untouched), but the freshly
appended user message remains in the conversation. -/
theorem generate_non200_aborts (s : SessionState) (prompt : String)
    (resp : HttpResponse) (h : resp.status_code ≠ 200) :
    generate_email_handler s prompt resp =
      ({ s with messages := s.messages ++ [⟨.user, prompt⟩] },
       .aborted resp.status_code) := by
  simp [generate_email_handler, get_llm_response, h]

/-- Concrete instance of `generate_non200_aborts` at status 500. -/
theorem generate_non200_aborts_witness :
    (500 : Nat) ≠ 200 ∧
      generate_email_handler initState "p" ⟨500, .null⟩ =
        ({ initState with messages := initState.messages ++ [⟨.user, "p"⟩] },
         .aborted 500) :=
  ⟨by decide, generate_non200_aborts initState "p" ⟨500, .null⟩ (by decide)⟩

/-- C4: whenever the provider library is absent or the credential is not
set, `send_email` short-circuits: it returns None, shows the configuration
error, and no provider request is issued. -/
theorem send_email_unconfigured (cfg : EmailConfig)
    (net : SendParams → Except String Json) (subject body recipient_email : String)
    (h : emailConfigured cfg = false) :
    send_email cfg net subject body recipient_email =
      { result := none,
        errors := ["Email sending is not available. Please install Resend and set the API key."],
        paramsSent := none } := by
  cases hx : cfg.resendInstalled <;> cases hy : keyTruthy cfg.resendApiKey <;>
    simp_all [send_email, emailConfigured]

/-- Concrete instance of `send_email_unconfigured`: installed library but
missing key. -/
theorem send_email_unconfigured_witness :
    emailConfigured ⟨true, none⟩ = false ∧
      send_email ⟨true, none⟩ (fun _ => .ok .null) "s" "b" "r" =
        { result := none,
          errors := ["Email sending is not available. Please install Resend and set the API key."],
          paramsSent := none } :=
  ⟨rfl, send_email_unconfigured ⟨true, none⟩ (fun _ => .ok .null) "s" "b" "r" rfl⟩

/-- Whatever the provider answers, any request `send_email` issues is
addressed to the recipient it was given. -/
theorem send_email_paramsSent_toAddr (cfg : EmailConfig)
    (net : SendParams → Except String Json) (subject body recipient_email : String)
    (p : SendParams)
    (hp : (send_email cfg net subject body recipient_email).paramsSent = some p) :
    p.toAddr = [recipient_email] := by
  simp only [send_email] at hp
  split at hp
  · simp at hp
  · split at hp <;> simp at hp <;> simp [← hp]

/-- C3: the Send Email action ignores the user-entered recipient: two runs
differing only in that input behave identically, and any provider request
actually issued is addressed to the single fixed mailbox. -/
theorem send_recipient_pinned (cfg : EmailConfig)
    (net : SendParams → Except String Json) (subj : String) (s : SessionState)
    (r1 r2 : String) :
    send_email_handler cfg net subj s r1 = send_email_handler cfg net subj s r2 ∧
      ∀ p : SendParams,
        (send_email_handler cfg net subj s r1).2.paramsSent = some p →
          p.toAddr = [fixedRecipient] := by
  refine ⟨rfl, ?_⟩
  intro p hp
  by_cases hc : (cfg.resendInstalled && keyTruthy cfg.resendApiKey) = true
  · simp only [send_email_handler, if_pos hc] at hp
    exact send_email_paramsSent_toAddr cfg net subj (lastContent s) fixedRecipient p hp
  · simp [send_email_handler, hc] at hp

/-- Concrete instance of `send_recipient_pinned`: the request issued for a
configured provider goes to the fixed mailbox. -/
theorem send_recipient_pinned_witness :
    ({ fromAddr := senderAddress, toAddr := [fixedRecipient], subject := "s",
        html := lastContent initState } : SendParams).toAddr = [fixedRecipient] :=
  (send_recipient_pinned ⟨true, some "k"⟩ (fun _ => .ok .null) "s" initState "a" "b").2
    _ rfl

/-- A JSON value without the key has no binding for it. -/
theorem getField_eq_none_of_hasKey_false (j : Json) (k : String)
    (h : j.hasKey k = false) : j.getField k = none := by
  cases j with
  | obj fs =>
      simp only [Json.hasKey, List.any_eq_false] at h
      have hfind : fs.find? (fun p => p.1 == k) = none := by
        rw [List.find?_eq_none]
        intro x hx
        simpa using h x hx
      simp [Json.getField, hfind]
  | str v => rfl
  | num n => rfl
  | arr xs => rfl
  | null => rfl

/-- C5: when the provider call returns successfully but the returned value
lacks an id field, the Send Email action reports a failure, never a
success. -/
theorem send_no_id_reported_failure (cfg : EmailConfig)
    (net : SendParams → Except String Json) (subj : String) (s : SessionState)
    (r : String)
    (h : ∀ ps : SendParams, ∃ j : Json, net ps = .ok j ∧ j.hasKey "id" = false) :
    ∃ msg : String, (send_email_handler cfg net subj s r).1 = .failure msg := by
  by_cases hc : (cfg.resendInstalled && keyTruthy cfg.resendApiKey) = true
  · obtain ⟨j, hnet, hid⟩ := h ⟨senderAddress, [fixedRecipient], subj, lastContent s⟩
    refine ⟨"Failed to send email: email_result does not have an id.", ?_⟩
    have hres : (send_email cfg net subj (lastContent s) fixedRecipient).result = some j := by
      rw [Bool.and_eq_true] at hc
      simp [send_email, hc.1, hc.2, hnet]
    simp only [send_email_handler, if_pos hc]
    simp [hres, sendReportOf, getField_eq_none_of_hasKey_false j "id" hid]
  · exact ⟨"Email sending is not available. Please install Resend and set the API key.",
      by simp [send_email_handler, hc]⟩

/-- Concrete instance of `send_no_id_reported_failure`: the provider
returns an empty dict. -/
theorem send_no_id_reported_failure_witness :
    ∃ msg : String,
      (send_email_handler ⟨true, some "k"⟩ (fun _ => .ok (.obj [])) "s" initState "r").1 =
        .failure msg :=
  send_no_id_reported_failure ⟨true, some "k"⟩ (fun _ => .ok (.obj [])) "s" initState "r"
    (fun _ => ⟨.obj [], rfl, rfl⟩)

/-- C10: on the Load Existing Profile branch, when several rows carry the
selected Name the first one in store order is taken (`iloc[0]` of the
filtered frame); later duplicates are never loaded. -/
theorem load_existing_first_match (df : DataFrame) (sel : String)
    (pre post : List (List Cell)) (r : List Cell)
    (hrows : df.rows = pre ++ r :: post)
    (hr : cellEqStr (r.getD 0 .nan) sel = true)
    (hpre : ∀ q ∈ pre, cellEqStr (q.getD 0 .nan) sel = false) :
    load_existing_profile df sel = some r := by
  unfold load_existing_profile
  rw [hrows, List.filter_append]
  have h1 : pre.filter (fun q => cellEqStr (q.getD 0 .nan) sel) = [] := by
    rw [List.filter_eq_nil_iff]
    intro q hq
    rw [hpre q hq]
    simp
  rw [h1, List.nil_append]
  simp only [List.getD_eq_getElem?_getD] at hr
  simp [List.filter_cons, hr]

/-- Concrete instance of `load_existing_first_match`: two saved profiles
named A; selecting A loads the first one. -/
theorem load_existing_first_match_witness :
    load_existing_profile
        (load_profiles (buildStore [⟨"A", "x1", "y1", "z1"⟩, ⟨"A", "x2", "y2", "z2"⟩]))
        "A" =
      some [Cell.str "A", Cell.str "x1", Cell.str "y1", Cell.str "z1"] :=
  load_existing_first_match _ "A" []
    [[Cell.str "A", Cell.str "x2", Cell.str "y2", Cell.str "z2"]]
    [Cell.str "A", Cell.str "x1", Cell.str "y1", Cell.str "z1"]
    (by decide) (by decide) (by decide)

/-- Appending non-system messages to a conversation headed by the system
message keeps the head and adds no system message to the tail. -/
theorem head_system_append (ms extra : List Message)
    (h1 : ms.head? = some systemMessage)
    (h2 : ∀ m ∈ ms.tail, m.role ≠ Role.system)
    (h3 : ∀ m ∈ extra, m.role ≠ Role.system) :
    (ms ++ extra).head? = some systemMessage ∧
      ∀ m ∈ (ms ++ extra).tail, m.role ≠ Role.system := by
  cases ms with
  | nil => simp at h1
  | cons a t =>
      refine ⟨by simpa using h1, ?_⟩
      intro m hm
      simp only [List.cons_append, List.tail_cons] at hm ⊢
      rcases List.mem_append.mp hm with hmem | hmem
      · exact h2 m (by simpa using hmem)
      · exact h3 m hmem

/-- C8: in every reachable session state the conversation begins with the
single fixed system message and no later message is a system message. -/
theorem conversation_starts_with_system (s : SessionState) (h : Reachable s) :
    s.messages.head? = some systemMessage ∧
      ∀ m ∈ s.messages.tail, m.role ≠ Role.system := by
  induction h with
  | init => exact ⟨rfl, by simp [initState]⟩
  | @step s' a hr ih =>
      cases a with
      | generate prompt resp =>
          obtain ⟨h1, h2⟩ := ih
          simp only [stepState, generate_email_handler]
          cases hg : get_llm_response (s'.messages ++ [⟨Role.user, prompt⟩]) resp with
          | ok c =>
              have key := head_system_append s'.messages
                [⟨Role.user, prompt⟩, ⟨Role.assistant, c⟩] h1 h2
                (by intro m hm; simp at hm; rcases hm with hm | hm <;> subst hm <;> simp)
              simpa [List.append_assoc] using key
          | exn =>
              have key := head_system_append s'.messages [⟨Role.user, prompt⟩] h1 h2
                (by intro m hm; simp at hm; subst hm; simp)
              simpa using key
          | stopped st =>
              have key := head_system_append s'.messages [⟨Role.user, prompt⟩] h1 h2
                (by intro m hm; simp at hm; subst hm; simp)
              simpa using key
      | startOver => exact ⟨rfl, by simp [stepState, start_over_handler]⟩
      | saveProfile p => exact ih
      | loadProfile row => exact ih

/-- Concrete instance of `conversation_starts_with_system`, one step from
initialisation. -/
theorem conversation_starts_with_system_witness :
    ((stepState initState (Action.generate "p" ⟨500, Json.null⟩)).messages.head? =
        some systemMessage ∧
      ∀ m ∈ (stepState initState (Action.generate "p" ⟨500, Json.null⟩)).messages.tail,
        m.role ≠ Role.system) :=
  conversation_starts_with_system _
    (Reachable.step (Action.generate "p" ⟨500, Json.null⟩) Reachable.init)

/-- One parser step outside quotes at end of input. -/
theorem parseCsvAux_plain_nil (acc : List (List String)) (row : List String)
    (field : List Char) :
    parseCsvAux acc row field .plain [] =
      if row = [] ∧ field = [] then acc else acc ++ [row ++ [String.mk field]] :=
  rfl

/-- One parser step outside quotes on a character. -/
theorem parseCsvAux_plain_cons (acc : List (List String)) (row : List String)
    (field : List Char) (c : Char) (cs : List Char) :
    parseCsvAux acc row field .plain (c :: cs) =
      if c = ',' then parseCsvAux acc (row ++ [String.mk field]) [] .plain cs
      else if c = '\n' then parseCsvAux (acc ++ [row ++ [String.mk field]]) [] [] .plain cs
      else if c = '"' ∧ field = [] then parseCsvAux acc row [] .quoted cs
      else parseCsvAux acc row (field ++ [c]) .plain cs :=
  rfl

/-- One parser step inside quotes on a character. -/
theorem parseCsvAux_quoted_cons (acc : List (List String)) (row : List String)
    (field : List Char) (c : Char) (cs : List Char) :
    parseCsvAux acc row field .quoted (c :: cs) =
      if c = '"' then parseCsvAux acc row field .quoteEnd cs
      else parseCsvAux acc row (field ++ [c]) .quoted cs :=
  rfl

/-- One parser step just after a closing quote. -/
theorem parseCsvAux_quoteEnd_cons (acc : List (List String)) (row : List String)
    (field : List Char) (c : Char) (cs : List Char) :
    parseCsvAux acc row field .quoteEnd (c :: cs) =
      if c = '"' then parseCsvAux acc row (field ++ ['"']) .quoted cs
      else if c = ',' then parseCsvAux acc (row ++ [String.mk field]) [] .plain cs
      else if c = '\n' then parseCsvAux (acc ++ [row ++ [String.mk field]]) [] [] .plain cs
      else parseCsvAux acc row (field ++ [c]) .plain cs :=
  rfl

/-- Plain (unquoted) characters are accumulated verbatim into the current
field. -/
theorem parseCsvAux_plain (cs : List Char) :
    ∀ acc row field rest, (∀ c ∈ cs, specialChar c = false) →
      parseCsvAux acc row field .plain (cs ++ rest) =
        parseCsvAux acc row (field ++ cs) .plain rest := by
  induction cs with
  | nil => intro acc row field rest _; simp
  | cons c cs ih =>
      intro acc row field rest h
      have hc := h c (List.mem_cons_self c cs)
      have hc1 : ¬ c = ',' := by intro e; subst e; simp [specialChar] at hc
      have hc2 : ¬ c = '\n' := by intro e; subst e; simp [specialChar] at hc
      have hc3 : ¬ c = '"' := by intro e; subst e; simp [specialChar] at hc
      rw [List.cons_append, parseCsvAux_plain_cons, if_neg hc1, if_neg hc2,
        if_neg (fun hand => hc3 hand.1),
        ih acc row (field ++ [c]) rest (fun x hx => h x (List.mem_cons_of_mem c hx)),
        List.append_assoc]
      rfl

/-- Inside a quoted field, the quote-escaped characters are accumulated
verbatim. -/
theorem parseCsvAux_quoted (cs : List Char) :
    ∀ acc row field rest,
      parseCsvAux acc row field .quoted (escapeQuotes cs ++ rest) =
        parseCsvAux acc row (field ++ cs) .quoted rest := by
  induction cs with
  | nil => intro acc row field rest; simp [escapeQuotes]
  | cons c cs ih =>
      intro acc row field rest
      by_cases hc : c = '"'
      · subst hc
        rw [show escapeQuotes ('"' :: cs) = '"' :: '"' :: escapeQuotes cs from rfl,
          List.cons_append, List.cons_append, parseCsvAux_quoted_cons, if_pos rfl,
          parseCsvAux_quoteEnd_cons, if_pos rfl, ih, List.append_assoc]
        rfl
      · rw [show escapeQuotes (c :: cs) = c :: escapeQuotes cs from by
            simp [escapeQuotes, hc],
          List.cons_append, parseCsvAux_quoted_cons, if_neg hc, ih, List.append_assoc]
        rfl

/-- Parsing one encoded field followed by a comma closes exactly that field
with its original characters. -/
theorem parseCsvAux_field_comma (s : String) (acc : List (List String))
    (row : List String) (rest : List Char) :
    parseCsvAux acc row [] .plain ((encodeField s).data ++ (',' :: rest)) =
      parseCsvAux acc (row ++ [s]) [] .plain rest := by
  by_cases hq : needsQuoting s = true
  · rw [show encodeField s = String.mk ('"' :: (escapeQuotes s.data ++ ['"'])) from by
      simp [encodeField, hq]]
    rw [show (String.mk ('"' :: (escapeQuotes s.data ++ ['"']))).data =
        '"' :: (escapeQuotes s.data ++ ['"']) from rfl]
    rw [List.cons_append, parseCsvAux_plain_cons,
      if_neg (by decide), if_neg (by decide), if_pos ⟨rfl, rfl⟩,
      List.append_assoc]
    rw [show (['"'] : List Char) ++ (',' :: rest) = '"' :: ',' :: rest from rfl]
    rw [parseCsvAux_quoted, parseCsvAux_quoted_cons, if_pos rfl,
      parseCsvAux_quoteEnd_cons, if_neg (by decide), if_pos rfl]
    rfl
  · have hq2 : needsQuoting s = false := by simpa using hq
    rw [show encodeField s = s from by simp [encodeField, hq2]]
    have hall : ∀ c ∈ s.data, specialChar c = false := by
      intro c hcm
      have := List.any_eq_false.mp (by simpa [needsQuoting] using hq2) c hcm
      simpa using this
    rw [parseCsvAux_plain s.data acc row [] (',' :: rest) hall,
      parseCsvAux_plain_cons, if_pos rfl]
    rfl

/-- Parsing one encoded field followed by a newline closes that field and
the current record. -/
theorem parseCsvAux_field_newline (s : String) (acc : List (List String))
    (row : List String) (rest : List Char) :
    parseCsvAux acc row [] .plain ((encodeField s).data ++ ('\n' :: rest)) =
      parseCsvAux (acc ++ [row ++ [s]]) [] [] .plain rest := by
  by_cases hq : needsQuoting s = true
  · rw [show encodeField s = String.mk ('"' :: (escapeQuotes s.data ++ ['"'])) from by
      simp [encodeField, hq]]
    rw [show (String.mk ('"' :: (escapeQuotes s.data ++ ['"']))).data =
        '"' :: (escapeQuotes s.data ++ ['"']) from rfl]
    rw [List.cons_append, parseCsvAux_plain_cons,
      if_neg (by decide), if_neg (by decide), if_pos ⟨rfl, rfl⟩,
      List.append_assoc]
    rw [show (['"'] : List Char) ++ ('\n' :: rest) = '"' :: '\n' :: rest from rfl]
    rw [parseCsvAux_quoted, parseCsvAux_quoted_cons, if_pos rfl,
      parseCsvAux_quoteEnd_cons, if_neg (by decide), if_neg (by decide), if_pos rfl]
    rfl
  · have hq2 : needsQuoting s = false := by simpa using hq
    rw [show encodeField s = s from by simp [encodeField, hq2]]
    have hall : ∀ c ∈ s.data, specialChar c = false := by
      intro c hcm
      have := List.any_eq_false.mp (by simpa [needsQuoting] using hq2) c hcm
      simpa using this
    rw [parseCsvAux_plain s.data acc row [] ('\n' :: rest) hall,
      parseCsvAux_plain_cons, if_neg (by decide), if_pos rfl]
    rfl

/-- Parsing one encoded profile row yields exactly its four raw fields as
one finished record. -/
theorem parseCsvAux_row (p : Profile) (acc : List (List String)) (rest : List Char) :
    parseCsvAux acc [] [] .plain ((encodeRow p).data ++ rest) =
      parseCsvAux (acc ++ [rawRow p]) [] [] .plain rest := by
  have hcd : ("," : String).data = [','] := rfl
  have hnd : ("\n" : String).data = ['\n'] := rfl
  have h1 : (encodeRow p).data ++ rest =
      (encodeField p.name).data ++ (',' ::
        ((encodeField p.industry).data ++ (',' ::
          ((encodeField p.company).data ++ (',' ::
            ((encodeField p.targetAudience).data ++ ('\n' :: rest))))))) := by
    simp [encodeRow, String.data_append, hcd, hnd, List.append_assoc]
  rw [h1, parseCsvAux_field_comma, parseCsvAux_field_comma, parseCsvAux_field_comma,
    parseCsvAux_field_newline]
  rfl

/-- Parsing the whole store text recovers the raw fields of every saved
profile, in order. -/
theorem parseCsvAux_storeText (l : List Profile) : ∀ acc : List (List String),
    parseCsvAux acc [] [] .plain (storeText l).data = acc ++ l.map rawRow := by
  induction l with
  | nil =>
      intro acc
      have hd : (storeText []).data = [] := rfl
      rw [hd]
      simp [parseCsvAux]
  | cons p l ih =>
      intro acc
      have hd : (storeText (p :: l)).data = (encodeRow p).data ++ (storeText l).data := by
        simp [storeText, String.data_append]
      rw [hd, parseCsvAux_row, ih]
      simp

/-- The contents of the store file after a fold of saves. -/
theorem foldl_save_getD (ps : List Profile) : ∀ o : Option String,
    (ps.foldl save_profile o).getD "" = o.getD "" ++ storeText ps := by
  induction ps with
  | nil => intro o; simp [storeText]
  | cons p ps ih =>
      intro o
      simp only [List.foldl_cons]
      rw [ih (save_profile o p)]
      simp [save_profile, storeText, String.append_assoc]

/-- Appending one more saved profile extends the store text. -/
theorem storeText_append_single (ps : List Profile) (p : Profile) :
    storeText ps ++ encodeRow p = storeText (ps ++ [p]) := by
  induction ps with
  | nil => simp [storeText]
  | cons q ps ih => simp [storeText, String.append_assoc, ih]

/-- The pieces of a good field: not a missing-value token, not numeric, not
boolean. -/
theorem goodField_parts (s : String) (h : goodField s = true) :
    isNa s = false ∧ isNumericLit s = false ∧ isBoolLit s = false := by
  simp only [goodField, Bool.and_eq_true, Bool.not_eq_true'] at h
  exact ⟨h.1.1, h.1.2, h.2⟩

/-- A column containing one non-missing non-numeric field is not sniffed as
numeric. -/
theorem colIsNumeric_false (raw : List (List String)) (r : List String) (j : Nat)
    (hmem : r ∈ raw) (hna : isNa (rawAt r j) = false)
    (hnum : isNumericLit (rawAt r j) = false) :
    colIsNumeric raw j = false := by
  rw [colIsNumeric, List.all_eq_false]
  exact ⟨r, hmem, by simp [hna, hnum]⟩

/-- A column containing one non-missing non-boolean field is not sniffed as
boolean. -/
theorem colIsBool_false (raw : List (List String)) (r : List String) (j : Nat)
    (hmem : r ∈ raw) (hna : isNa (rawAt r j) = false)
    (hbool : isBoolLit (rawAt r j) = false) :
    colIsBool raw j = false := by
  rw [colIsBool, List.all_eq_false]
  exact ⟨r, hmem, by simp [hna, hbool]⟩

/-- C2 counterexample: saving the all-empty profile into a fresh store and
loading yields a last row of missing values (NaN), not the saved empty
strings. -/
theorem save_load_empty_fields_not_roundtrip :
    (load_profiles (save_profile none ⟨"", "", "", ""⟩)).rows.getLast? ≠
      some (profileRow ⟨"", "", "", ""⟩) := by
  decide

/-- C2 amended: for every store reached by saves and every profile whose
four fields survive the CSV round trip (non-empty, not missing-value
tokens, not numeric or boolean literals), saving and then loading yields a
table whose last row equals the saved profile field-for-field. -/
theorem save_then_load_last_row (ps : List Profile) (p : Profile)
    (h1 : goodField p.name = true) (h2 : goodField p.industry = true)
    (h3 : goodField p.company = true) (h4 : goodField p.targetAudience = true) :
    (load_profiles (save_profile (buildStore ps) p)).rows.getLast? =
      some (profileRow p) := by
  have hfile : save_profile (buildStore ps) p = some (storeText (ps ++ [p])) := by
    simp only [save_profile, buildStore]
    rw [foldl_save_getD ps none]
    simp [storeText_append_single]
  have hraw : parseCsv (storeText (ps ++ [p])) = ps.map rawRow ++ [rawRow p] := by
    rw [parseCsv, parseCsvAux_storeText]
    simp
  rw [hfile]
  show (convertTable (parseCsv (storeText (ps ++ [p])))).getLast? = some (profileRow p)
  rw [hraw]
  obtain ⟨na0, nu0, nb0⟩ := goodField_parts p.name h1
  obtain ⟨na1, nu1, nb1⟩ := goodField_parts p.industry h2
  obtain ⟨na2, nu2, nb2⟩ := goodField_parts p.company h3
  obtain ⟨na3, nu3, nb3⟩ := goodField_parts p.targetAudience h4
  have hmem : rawRow p ∈ ps.map rawRow ++ [rawRow p] :=
    List.mem_append_right _ (List.mem_singleton_self _)
  have c0n := colIsNumeric_false (ps.map rawRow ++ [rawRow p]) (rawRow p) 0 hmem na0 nu0
  have c1n := colIsNumeric_false (ps.map rawRow ++ [rawRow p]) (rawRow p) 1 hmem na1 nu1
  have c2n := colIsNumeric_false (ps.map rawRow ++ [rawRow p]) (rawRow p) 2 hmem na2 nu2
  have c3n := colIsNumeric_false (ps.map rawRow ++ [rawRow p]) (rawRow p) 3 hmem na3 nu3
  have c0b := colIsBool_false (ps.map rawRow ++ [rawRow p]) (rawRow p) 0 hmem na0 nb0
  have c1b := colIsBool_false (ps.map rawRow ++ [rawRow p]) (rawRow p) 1 hmem na1 nb1
  have c2b := colIsBool_false (ps.map rawRow ++ [rawRow p]) (rawRow p) 2 hmem na2 nb2
  have c3b := colIsBool_false (ps.map rawRow ++ [rawRow p]) (rawRow p) 3 hmem na3 nb3
  rw [convertTable, List.map_append]
  simp only [List.map_cons, List.map_nil]
  rw [List.getLast?_concat]
  have hr4 : List.range 4 = [0, 1, 2, 3] := rfl
  have e0 : rawAt (rawRow p) 0 = p.name := rfl
  have e1 : rawAt (rawRow p) 1 = p.industry := rfl
  have e2 : rawAt (rawRow p) 2 = p.company := rfl
  have e3 : rawAt (rawRow p) 3 = p.targetAudience := rfl
  rw [hr4]
  simp only [List.map_cons, List.map_nil]
  rw [c0n, c1n, c2n, c3n, c0b, c1b, c2b, c3b, e0, e1, e2, e3]
  simp [convertCell, na0, na1, na2, na3, profileRow]

/-- Concrete instance of `save_then_load_last_row` on a one-profile store. -/
theorem save_then_load_last_row_witness :
    goodField "Alice" = true ∧
      (load_profiles (save_profile (buildStore [⟨"Bob", "Sales", "Initech", "SMB owners"⟩])
          ⟨"Alice", "Tech", "Acme", "Developers"⟩)).rows.getLast? =
        some (profileRow ⟨"Alice", "Tech", "Acme", "Developers"⟩) :=
  ⟨by decide,
   save_then_load_last_row [⟨"Bob", "Sales", "Initech", "SMB owners"⟩]
     ⟨"Alice", "Tech", "Acme", "Developers"⟩
     (by decide) (by decide) (by decide) (by decide)⟩

end EmailG
